import Mathlib

/-!
Verification of `glances/cpu_percent.py` (class `CpuPercent`): a time-gated
cache for three CPU metrics (aggregate percent, per-core list, cpu info),
each guarded by its own refresh timer.

The embedding models wall-clock time as an explicit rational argument `now`,
the mutable object state as an explicit `CpuPercentState` record that every
operation threads through, the external `psutil` provider and the
`/proc/cpuinfo` name source as `Option`-valued inputs to each call
(`none` = the external call raises), and Python dicts as insertion-ordered
association lists.  Each accessor additionally reports a `Bool` telling
whether this call invoked the OS provider (i.e. entered its refresh branch).
-/

namespace Glances

/-- Heterogeneous dict values: the per-core dicts mix a string (`key`),
an int (`cpu_number`) and floats; `cpu_info` mixes a string and floats.
Numeric values are modelled as rationals. -/
inductive Val where
  | str : String → Val
  | num : ℚ → Val
  | nat : ℕ → Val
deriving DecidableEq, Repr

/-- A Python dict with string keys, as an insertion-ordered association list. -/
abbrev Dict := List (String × Val)

/-- First-match lookup, `d[k]` / `k in d`. -/
def dictLookup (k : String) : Dict → Option Val
  | [] => none
  | (k2, v) :: tl => if k2 = k then some v else dictLookup k tl

/-- Python `d[k] = v`: overwrite in place if the key exists (keeping its
position), otherwise append at the end. -/
def dictInsert (k : String) (v : Val) : Dict → Dict
  | [] => [(k, v)]
  | (k2, v2) :: tl => if k2 = k then (k2, v) :: tl else (k2, v2) :: dictInsert k v tl

/-- The keys of a dict, in order. -/
def dictKeys (d : Dict) : List String := d.map Prod.fst

/-- Modelled from the spec: the `Timer` class (`glances/timer.py`) is imported
by the source but its file is not part of the sources at hand.  Spec §3,
RefreshTimer: "represents a deadline. Attributes: `expiry` (absolute time).
Operation: `is_due()` → true iff current time ≥ expiry. Created with a
duration offset from now; a duration of zero means immediately due." -/
structure Timer where
  target : ℚ
deriving DecidableEq, Repr

/-- Modelled from the spec: `Timer(duration)` evaluated at wall-clock `now`
sets the expiry to `now + duration`. -/
def newTimer (duration now : ℚ) : Timer := ⟨now + duration⟩

/-- Modelled from the spec: `timer.finished()` at wall-clock `now` is true
iff `now` has reached the expiry. -/
def Timer.finished (t : Timer) (now : ℚ) : Bool := decide (t.target ≤ now)

/-- One record of `psutil.cpu_times_percent(percpu=True)`: `user`, `system`,
`idle` are always present; the remaining attributes are platform-dependent,
`hasattr` probed in the source, hence `Option`. -/
structure CpuTimes where
  user : ℚ
  system : ℚ
  idle : ℚ
  nice : Option ℚ
  iowait : Option ℚ
  irq : Option ℚ
  softirq : Option ℚ
  steal : Option ℚ
  guest : Option ℚ
  guest_nice : Option ℚ
deriving DecidableEq, Repr

/-- Result of `psutil.cpu_freq()`: current and max frequency. -/
structure CpuFreq where
  current : ℚ
  max : ℚ
deriving DecidableEq, Repr

/-- The attribute state of a `CpuPercent` instance. -/
structure CpuPercentState where
  cpu_info : Dict
  cpu_percent : ℚ
  percpu_percent : List Dict
  cached_time : ℚ
  timer_cpu_info : Timer
  timer_cpu : Timer
  timer_percpu : Timer
deriving DecidableEq, Repr

namespace CpuPercent

/-- Constructor `CpuPercent.__init__(self, cached_time=1)` evaluated at wall-clock `now`.
The source assigns the literal `1` to `self.cached_time`, not the
`cached_time` parameter; the parameter is modelled (and ignored) exactly as
in the source.  The three timers are created with duration 0. -/
def init (cached_time : ℚ) (now : ℚ) : CpuPercentState :=
  { cpu_info := []
    cpu_percent := 0
    percpu_percent := []
    cached_time := 1
    timer_cpu_info := newTimer 0 now
    timer_cpu := newTimer 0 now
    timer_percpu := newTimer 0 now }

/-- Method `CpuPercent.get_key`: the constant key of the per CPU list. -/
def get_key : String := "cpu_number"

/-- Method `CpuPercent.__get_cpu` at wall-clock `now`; `prov` is the outcome of
`psutil.cpu_percent(interval=0.0)` (`none` = the provider raises).  Returns
(result, new state, whether the provider was invoked). -/
def get_cpu (st : CpuPercentState) (now : ℚ) (prov : Option ℚ) :
    Except Unit ℚ × CpuPercentState × Bool :=
  if st.timer_cpu.finished now then
    match prov with
    | none => (Except.error (), st, true)
    | some v =>
        let st2 := { st with
          cpu_percent := v
          timer_cpu := newTimer st.cached_time now }
        (Except.ok v, st2, true)
  else
    (Except.ok st.cpu_percent, st, false)

/-- Python's `round(x, 1)` over the rational model: round `10*x` to the
nearest integer, ties to even, then divide by 10. -/
def round1 (x : ℚ) : ℚ :=
  let y : ℚ := 10 * x
  let f : ℤ := ⌊y⌋
  let r : ℚ := y - f
  let n : ℤ :=
    if r < 1/2 then f
    else if 1/2 < r then f + 1
    else if f % 2 = 0 then f else f + 1
  (n : ℚ) / 10

/-- The conditional `cpu[k] = v` writes for the platform-dependent attributes:
present as a one-entry segment iff the provider record exposes the attribute. -/
def optField (k : String) (v : Option ℚ) : Dict :=
  match v with
  | some x => [(k, Val.num x)]
  | none => []

/-- The always-present part of the per-core dict: the literal
`cpu = {'key': ..., 'cpu_number': ..., 'total': ..., 'user': ..., 'system': ...,
'idle': ...}` of the `__get_percpu` loop body, in source order. -/
def coreBase (cpu_number : ℕ) (cputimes : CpuTimes) : Dict :=
  [("key", Val.str get_key),
   ("cpu_number", Val.nat cpu_number),
   ("total", Val.num (round1 (100 - cputimes.idle))),
   ("user", Val.num cputimes.user),
   ("system", Val.num cputimes.system),
   ("idle", Val.num cputimes.idle)]

/-- The dict built for one core in the `__get_percpu` loop body: the literal
dict of always-present entries, followed by the conditional entries in source
order (all keys are distinct, so the conditional `cpu[k] = v` assignments
append). -/
def mkCoreDict (cpu_number : ℕ) (cputimes : CpuTimes) : Dict :=
  coreBase cpu_number cputimes
  ++ (optField "nice" cputimes.nice
  ++ (optField "iowait" cputimes.iowait
  ++ (optField "irq" cputimes.irq
  ++ (optField "softirq" cputimes.softirq
  ++ (optField "steal" cputimes.steal
  ++ (optField "guest" cputimes.guest
  ++ optField "guest_nice" cputimes.guest_nice))))))

/-- Python's `enumerate`, starting at index `i`. -/
def pyEnumerate (i : ℕ) : List CpuTimes → List (ℕ × CpuTimes)
  | [] => []
  | a :: tl => (i, a) :: pyEnumerate (i + 1) tl

/-- The body of the `for cpu_number, cputimes in enumerate(...)` loop of
`__get_percpu`: append the core dict to `self.percpu_percent` and (inside the
loop, as in the source) reset `self.timer_percpu`. -/
def percpuLoop (now : ℚ) (ps : List (ℕ × CpuTimes)) (st : CpuPercentState) :
    CpuPercentState :=
  ps.foldl (fun s p =>
    { s with
      percpu_percent := s.percpu_percent ++ [mkCoreDict p.1 p.2]
      timer_percpu := newTimer s.cached_time now }) st

/-- Method `CpuPercent.__get_percpu` at wall-clock `now`; `prov` is the outcome of
`psutil.cpu_times_percent(interval=0.0, percpu=True)` (`none` = the provider
raises, after `self.percpu_percent = []` has already run). -/
def get_percpu (st : CpuPercentState) (now : ℚ) (prov : Option (List CpuTimes)) :
    Except Unit (List Dict) × CpuPercentState × Bool :=
  if st.timer_percpu.finished now then
    let st0 := { st with percpu_percent := [] }
    match prov with
    | none => (Except.error (), st0, true)
    | some recs =>
        let st1 := percpuLoop now (pyEnumerate 0 recs) st0
        (Except.ok st1.percpu_percent, st1, true)
  else
    (Except.ok st.percpu_percent, st, false)

/-- Method `CpuPercent.get(self, percpu)`: dispatch to the per-core or aggregate
accessor. -/
def get (st : CpuPercentState) (now : ℚ) (percpu : Bool)
    (provCpu : Option ℚ) (provPercpu : Option (List CpuTimes)) :
    Except Unit (ℚ ⊕ List Dict) × CpuPercentState × Bool :=
  if percpu then
    let (r, st2, b) := get_percpu st now provPercpu
    (r.map Sum.inr, st2, b)
  else
    let (r, st2, b) := get_cpu st now provCpu
    (r.map Sum.inl, st2, b)

/-- The cpu name as stored by `get_info`: the parsed `/proc/cpuinfo` value
when the read/parse succeeds, else the `except:` fallback literal. -/
def nameOf (nameSrc : Option String) : String :=
  match nameSrc with
  | some n => n
  | none => "CPU"

/-- Method `CpuPercent.get_info` at wall-clock `now`.  `nameSrc` is the outcome of
reading and parsing `/proc/cpuinfo` (`none` = any failure, swallowed by the
source's bare `except:`); `freq` is the outcome of the `psutil.cpu_freq()`
frequency query (`none` = it raises; the source's two `cpu_freq()` calls in
one refresh are modelled as one query supplying both fields).  On a frequency
failure the exception propagates after `cpu_name` was already stored. -/
def get_info (st : CpuPercentState) (now : ℚ)
    (nameSrc : Option String) (freq : Option CpuFreq) :
    Except Unit Dict × CpuPercentState × Bool :=
  if st.timer_cpu_info.finished now then
    let info1 := dictInsert "cpu_name" (Val.str (nameOf nameSrc)) st.cpu_info
    match freq with
    | none => (Except.error (), { st with cpu_info := info1 }, true)
    | some f =>
        let info2 := dictInsert "cpu_hz_current" (Val.num f.current) info1
        let info3 := dictInsert "cpu_hz" (Val.num f.max) info2
        let st2 := { st with
          cpu_info := info3
          timer_cpu_info := newTimer st.cached_time now }
        (Except.ok info3, st2, true)
  else
    (Except.ok st.cpu_info, st, false)

end CpuPercent

/-! ### Helper lemmas about the embedding -/

lemma dictLookup_insert_self (k : String) (v : Val) (d : Dict) :
    dictLookup k (dictInsert k v d) = some v := by
  induction d with
  | nil => simp [dictInsert, dictLookup]
  | cons a tl ih =>
      obtain ⟨k2, v2⟩ := a
      by_cases h : k2 = k <;> simp [dictInsert, dictLookup, h, ih]

lemma dictLookup_insert_ne {k2 k : String} (h : k2 ≠ k) (v : Val) (d : Dict) :
    dictLookup k (dictInsert k2 v d) = dictLookup k d := by
  induction d with
  | nil => simp [dictInsert, dictLookup, h]
  | cons a tl ih =>
      obtain ⟨k3, v3⟩ := a
      by_cases h3 : k3 = k2
      · subst h3; simp [dictInsert, dictLookup, h]
      · by_cases h4 : k3 = k <;> simp [dictInsert, dictLookup, h3, h4, ih, Ne.symm h]

lemma Timer.finished_mono {tm : Timer} {a b : ℚ} (h : tm.finished a = true)
    (hab : a ≤ b) : tm.finished b = true := by
  simp only [Timer.finished, decide_eq_true_eq] at h ⊢
  exact le_trans h hab

lemma newTimer_not_finished {c now t1 : ℚ} (h : t1 < now + c) :
    (newTimer c now).finished t1 = false := by
  simp only [newTimer, Timer.finished, decide_eq_false_iff_not, not_le]
  exact h

namespace CpuPercent

lemma get_cpu_not_due {st : CpuPercentState} {now : ℚ} (p : Option ℚ)
    (h : st.timer_cpu.finished now = false) :
    get_cpu st now p = (Except.ok st.cpu_percent, st, false) := by
  simp [get_cpu, h]

lemma get_cpu_fail {st : CpuPercentState} {now : ℚ}
    (h : st.timer_cpu.finished now = true) :
    get_cpu st now none = (Except.error (), st, true) := by
  simp [get_cpu, h]

lemma get_cpu_sample {st : CpuPercentState} {now : ℚ}
    (h : st.timer_cpu.finished now = true) (v : ℚ) :
    get_cpu st now (some v) =
      (Except.ok v,
       { st with cpu_percent := v, timer_cpu := newTimer st.cached_time now },
       true) := by
  simp [get_cpu, h]

lemma get_cpu_ok_inv {st st2 : CpuPercentState} {now v w : ℚ}
    (h : get_cpu st now (some v) = (Except.ok w, st2, true)) :
    w = v ∧
    st2 = { st with cpu_percent := v, timer_cpu := newTimer st.cached_time now } := by
  rcases hf : st.timer_cpu.finished now with _ | _
  · rw [get_cpu_not_due _ hf] at h
    injection h with h1 h23
    injection h23 with h2 h3
    exact Bool.noConfusion h3
  · rw [get_cpu_sample hf v] at h
    injection h with h1 h23
    injection h23 with h2 h3
    injection h1 with h1
    exact ⟨h1.symm, h2.symm⟩

lemma percpuLoop_eq (now : ℚ) (ps : List (ℕ × CpuTimes)) (st : CpuPercentState) :
    percpuLoop now ps st =
      { st with
        percpu_percent := st.percpu_percent ++ ps.map (fun p => mkCoreDict p.1 p.2)
        timer_percpu := if ps.isEmpty then st.timer_percpu
                        else newTimer st.cached_time now } := by
  induction ps generalizing st with
  | nil => simp [percpuLoop]
  | cons p tl ih =>
      show percpuLoop now tl _ = _
      rw [ih]
      simp [List.isEmpty, List.append_assoc]

lemma pyEnumerate_length (i : ℕ) (l : List CpuTimes) :
    (pyEnumerate i l).length = l.length := by
  induction l generalizing i with
  | nil => rfl
  | cons a tl ih => simp [pyEnumerate, ih]

lemma pyEnumerate_getElem (i j : ℕ) (l : List CpuTimes) :
    (pyEnumerate i l)[j]? = l[j]?.map (fun a => (i + j, a)) := by
  induction l generalizing i j with
  | nil => simp [pyEnumerate]
  | cons a tl ih =>
      cases j with
      | zero => simp [pyEnumerate]
      | succ j2 =>
          simp only [pyEnumerate, List.getElem?_cons_succ, ih (i + 1) j2]
          cases tl[j2]? <;> simp [Nat.add_assoc, Nat.add_comm 1 j2]

lemma get_percpu_not_due {st : CpuPercentState} {now : ℚ} (p : Option (List CpuTimes))
    (h : st.timer_percpu.finished now = false) :
    get_percpu st now p = (Except.ok st.percpu_percent, st, false) := by
  simp [get_percpu, h]

lemma get_percpu_fail {st : CpuPercentState} {now : ℚ}
    (h : st.timer_percpu.finished now = true) :
    get_percpu st now none =
      (Except.error (), { st with percpu_percent := [] }, true) := by
  simp [get_percpu, h]

lemma get_percpu_sample {st : CpuPercentState} {now : ℚ}
    (h : st.timer_percpu.finished now = true) (recs : List CpuTimes) :
    get_percpu st now (some recs) =
      (Except.ok ((pyEnumerate 0 recs).map fun p => mkCoreDict p.1 p.2),
       { st with
         percpu_percent := (pyEnumerate 0 recs).map fun p => mkCoreDict p.1 p.2
         timer_percpu := if (pyEnumerate 0 recs).isEmpty then st.timer_percpu
                         else newTimer st.cached_time now },
       true) := by
  simp [get_percpu, h, percpuLoop_eq]

lemma get_percpu_ok_inv {st st2 : CpuPercentState} {now : ℚ}
    {recs : List CpuTimes} {l : List Dict}
    (h : get_percpu st now (some recs) = (Except.ok l, st2, true)) :
    l = (pyEnumerate 0 recs).map (fun p => mkCoreDict p.1 p.2) ∧
    st2 = { st with
            percpu_percent := l
            timer_percpu := if (pyEnumerate 0 recs).isEmpty then st.timer_percpu
                            else newTimer st.cached_time now } := by
  rcases hf : st.timer_percpu.finished now with _ | _
  · rw [get_percpu_not_due _ hf] at h
    injection h with h1 h23
    injection h23 with h2 h3
    exact Bool.noConfusion h3
  · rw [get_percpu_sample hf recs] at h
    injection h with h1 h23
    injection h23 with h2 h3
    injection h1 with h1
    subst h1
    exact ⟨rfl, h2.symm⟩

lemma get_info_not_due {st : CpuPercentState} {now : ℚ}
    (nm : Option String) (f : Option CpuFreq)
    (h : st.timer_cpu_info.finished now = false) :
    get_info st now nm f = (Except.ok st.cpu_info, st, false) := by
  simp [get_info, h]

lemma get_info_fail {st : CpuPercentState} {now : ℚ} (nm : Option String)
    (h : st.timer_cpu_info.finished now = true) :
    get_info st now nm none =
      (Except.error (),
       { st with cpu_info := dictInsert "cpu_name" (Val.str (nameOf nm)) st.cpu_info },
       true) := by
  simp [get_info, h]

lemma get_info_sample {st : CpuPercentState} {now : ℚ}
    (nm : Option String) (f : CpuFreq)
    (h : st.timer_cpu_info.finished now = true) :
    get_info st now nm (some f) =
      (Except.ok (dictInsert "cpu_hz" (Val.num f.max)
          (dictInsert "cpu_hz_current" (Val.num f.current)
            (dictInsert "cpu_name" (Val.str (nameOf nm)) st.cpu_info))),
       { st with
         cpu_info := dictInsert "cpu_hz" (Val.num f.max)
            (dictInsert "cpu_hz_current" (Val.num f.current)
              (dictInsert "cpu_name" (Val.str (nameOf nm)) st.cpu_info))
         timer_cpu_info := newTimer st.cached_time now },
       true) := by
  simp [get_info, h]

lemma get_info_ok_inv {st st2 : CpuPercentState} {now : ℚ}
    {nm : Option String} {f : CpuFreq} {d : Dict}
    (h : get_info st now nm (some f) = (Except.ok d, st2, true)) :
    d = dictInsert "cpu_hz" (Val.num f.max)
          (dictInsert "cpu_hz_current" (Val.num f.current)
            (dictInsert "cpu_name" (Val.str (nameOf nm)) st.cpu_info)) ∧
    st2 = { st with
            cpu_info := d
            timer_cpu_info := newTimer st.cached_time now } := by
  rcases hf : st.timer_cpu_info.finished now with _ | _
  · rw [get_info_not_due nm (some f) hf] at h
    injection h with h1 h23
    injection h23 with h2 h3
    exact Bool.noConfusion h3
  · rw [get_info_sample nm f hf] at h
    injection h with h1 h23
    injection h23 with h2 h3
    injection h1 with h1
    subst h1
    exact ⟨rfl, h2.symm⟩

lemma dictLookup_append_of_some {k : String} {l1 : Dict} {v : Val}
    (h : dictLookup k l1 = some v) (l2 : Dict) :
    dictLookup k (l1 ++ l2) = some v := by
  induction l1 with
  | nil => simp [dictLookup] at h
  | cons a tl ih =>
      obtain ⟨k2, v2⟩ := a
      by_cases h2 : k2 = k
      · simp [dictLookup, h2] at h ⊢; exact h
      · simp [dictLookup, h2] at h ⊢; exact ih h

lemma dictLookup_append_of_none {k : String} {l1 : Dict}
    (h : dictLookup k l1 = none) (l2 : Dict) :
    dictLookup k (l1 ++ l2) = dictLookup k l2 := by
  induction l1 with
  | nil => simp
  | cons a tl ih =>
      obtain ⟨k2, v2⟩ := a
      by_cases h2 : k2 = k
      · simp [dictLookup, h2] at h
      · simp [dictLookup, h2] at h ⊢; exact ih h

lemma dictLookup_optField_ne {k2 k : String} (h : k2 ≠ k) (v : Option ℚ) :
    dictLookup k (optField k2 v) = none := by
  cases v <;> simp [optField, dictLookup, h]

lemma dictLookup_optField_self (k : String) (v : Option ℚ) :
    dictLookup k (optField k v) = v.map Val.num := by
  cases v <;> simp [optField, dictLookup]

lemma dictLookup_optField_append_ne {k2 k : String} (h : k2 ≠ k)
    (v : Option ℚ) (rest : Dict) :
    dictLookup k (optField k2 v ++ rest) = dictLookup k rest := by
  cases v <;> simp [optField, dictLookup, h]

lemma dictLookup_optField_append_self (k : String) (v : Option ℚ) (rest : Dict)
    (hrest : dictLookup k rest = none) :
    dictLookup k (optField k v ++ rest) = v.map Val.num := by
  cases v <;> simp [optField, dictLookup, hrest]

lemma mkCoreDict_key (n : ℕ) (ct : CpuTimes) :
    dictLookup "key" (mkCoreDict n ct) = some (Val.str get_key) := rfl

lemma mkCoreDict_cpu_number (n : ℕ) (ct : CpuTimes) :
    dictLookup "cpu_number" (mkCoreDict n ct) = some (Val.nat n) := rfl

lemma mkCoreDict_total (n : ℕ) (ct : CpuTimes) :
    dictLookup "total" (mkCoreDict n ct) =
      some (Val.num (round1 (100 - ct.idle))) := rfl

lemma mkCoreDict_user (n : ℕ) (ct : CpuTimes) :
    dictLookup "user" (mkCoreDict n ct) = some (Val.num ct.user) := rfl

lemma mkCoreDict_system (n : ℕ) (ct : CpuTimes) :
    dictLookup "system" (mkCoreDict n ct) = some (Val.num ct.system) := rfl

lemma mkCoreDict_idle (n : ℕ) (ct : CpuTimes) :
    dictLookup "idle" (mkCoreDict n ct) = some (Val.num ct.idle) := rfl

lemma coreBase_lookup_of_optional {k : String} (n : ℕ) (ct : CpuTimes)
    (h1 : k ≠ "key") (h2 : k ≠ "cpu_number") (h3 : k ≠ "total")
    (h4 : k ≠ "user") (h5 : k ≠ "system") (h6 : k ≠ "idle") :
    dictLookup k (coreBase n ct) = none := by
  simp [coreBase, dictLookup, Ne.symm h1, Ne.symm h2, Ne.symm h3,
        Ne.symm h4, Ne.symm h5, Ne.symm h6]

lemma mkCoreDict_nice (n : ℕ) (ct : CpuTimes) :
    dictLookup "nice" (mkCoreDict n ct) = ct.nice.map Val.num := by
  rw [mkCoreDict,
      dictLookup_append_of_none
        (coreBase_lookup_of_optional n ct (by decide) (by decide) (by decide)
          (by decide) (by decide) (by decide)),
      dictLookup_optField_append_self]
  rw [dictLookup_optField_append_ne (show ("iowait" : String) ≠ "nice" by decide),
      dictLookup_optField_append_ne (show ("irq" : String) ≠ "nice" by decide),
      dictLookup_optField_append_ne (show ("softirq" : String) ≠ "nice" by decide),
      dictLookup_optField_append_ne (show ("steal" : String) ≠ "nice" by decide),
      dictLookup_optField_append_ne (show ("guest" : String) ≠ "nice" by decide)]
  exact dictLookup_optField_ne (show ("guest_nice" : String) ≠ "nice" by decide) _

lemma mkCoreDict_iowait (n : ℕ) (ct : CpuTimes) :
    dictLookup "iowait" (mkCoreDict n ct) = ct.iowait.map Val.num := by
  rw [mkCoreDict,
      dictLookup_append_of_none
        (coreBase_lookup_of_optional n ct (by decide) (by decide) (by decide)
          (by decide) (by decide) (by decide)),
      dictLookup_optField_append_ne (show ("nice" : String) ≠ "iowait" by decide),
      dictLookup_optField_append_self]
  rw [dictLookup_optField_append_ne (show ("irq" : String) ≠ "iowait" by decide),
      dictLookup_optField_append_ne (show ("softirq" : String) ≠ "iowait" by decide),
      dictLookup_optField_append_ne (show ("steal" : String) ≠ "iowait" by decide),
      dictLookup_optField_append_ne (show ("guest" : String) ≠ "iowait" by decide)]
  exact dictLookup_optField_ne (show ("guest_nice" : String) ≠ "iowait" by decide) _

lemma mkCoreDict_irq (n : ℕ) (ct : CpuTimes) :
    dictLookup "irq" (mkCoreDict n ct) = ct.irq.map Val.num := by
  rw [mkCoreDict,
      dictLookup_append_of_none
        (coreBase_lookup_of_optional n ct (by decide) (by decide) (by decide)
          (by decide) (by decide) (by decide)),
      dictLookup_optField_append_ne (show ("nice" : String) ≠ "irq" by decide),
      dictLookup_optField_append_ne (show ("iowait" : String) ≠ "irq" by decide),
      dictLookup_optField_append_self]
  rw [dictLookup_optField_append_ne (show ("softirq" : String) ≠ "irq" by decide),
      dictLookup_optField_append_ne (show ("steal" : String) ≠ "irq" by decide),
      dictLookup_optField_append_ne (show ("guest" : String) ≠ "irq" by decide)]
  exact dictLookup_optField_ne (show ("guest_nice" : String) ≠ "irq" by decide) _

lemma mkCoreDict_softirq (n : ℕ) (ct : CpuTimes) :
    dictLookup "softirq" (mkCoreDict n ct) = ct.softirq.map Val.num := by
  rw [mkCoreDict,
      dictLookup_append_of_none
        (coreBase_lookup_of_optional n ct (by decide) (by decide) (by decide)
          (by decide) (by decide) (by decide)),
      dictLookup_optField_append_ne (show ("nice" : String) ≠ "softirq" by decide),
      dictLookup_optField_append_ne (show ("iowait" : String) ≠ "softirq" by decide),
      dictLookup_optField_append_ne (show ("irq" : String) ≠ "softirq" by decide),
      dictLookup_optField_append_self]
  rw [dictLookup_optField_append_ne (show ("steal" : String) ≠ "softirq" by decide),
      dictLookup_optField_append_ne (show ("guest" : String) ≠ "softirq" by decide)]
  exact dictLookup_optField_ne (show ("guest_nice" : String) ≠ "softirq" by decide) _

lemma mkCoreDict_steal (n : ℕ) (ct : CpuTimes) :
    dictLookup "steal" (mkCoreDict n ct) = ct.steal.map Val.num := by
  rw [mkCoreDict,
      dictLookup_append_of_none
        (coreBase_lookup_of_optional n ct (by decide) (by decide) (by decide)
          (by decide) (by decide) (by decide)),
      dictLookup_optField_append_ne (show ("nice" : String) ≠ "steal" by decide),
      dictLookup_optField_append_ne (show ("iowait" : String) ≠ "steal" by decide),
      dictLookup_optField_append_ne (show ("irq" : String) ≠ "steal" by decide),
      dictLookup_optField_append_ne (show ("softirq" : String) ≠ "steal" by decide),
      dictLookup_optField_append_self]
  rw [dictLookup_optField_append_ne (show ("guest" : String) ≠ "steal" by decide)]
  exact dictLookup_optField_ne (show ("guest_nice" : String) ≠ "steal" by decide) _

lemma mkCoreDict_guest (n : ℕ) (ct : CpuTimes) :
    dictLookup "guest" (mkCoreDict n ct) = ct.guest.map Val.num := by
  rw [mkCoreDict,
      dictLookup_append_of_none
        (coreBase_lookup_of_optional n ct (by decide) (by decide) (by decide)
          (by decide) (by decide) (by decide)),
      dictLookup_optField_append_ne (show ("nice" : String) ≠ "guest" by decide),
      dictLookup_optField_append_ne (show ("iowait" : String) ≠ "guest" by decide),
      dictLookup_optField_append_ne (show ("irq" : String) ≠ "guest" by decide),
      dictLookup_optField_append_ne (show ("softirq" : String) ≠ "guest" by decide),
      dictLookup_optField_append_ne (show ("steal" : String) ≠ "guest" by decide),
      dictLookup_optField_append_self]
  exact dictLookup_optField_ne (show ("guest_nice" : String) ≠ "guest" by decide) _

lemma mkCoreDict_guest_nice (n : ℕ) (ct : CpuTimes) :
    dictLookup "guest_nice" (mkCoreDict n ct) = ct.guest_nice.map Val.num := by
  rw [mkCoreDict,
      dictLookup_append_of_none
        (coreBase_lookup_of_optional n ct (by decide) (by decide) (by decide)
          (by decide) (by decide) (by decide)),
      dictLookup_optField_append_ne (show ("nice" : String) ≠ "guest_nice" by decide),
      dictLookup_optField_append_ne (show ("iowait" : String) ≠ "guest_nice" by decide),
      dictLookup_optField_append_ne (show ("irq" : String) ≠ "guest_nice" by decide),
      dictLookup_optField_append_ne (show ("softirq" : String) ≠ "guest_nice" by decide),
      dictLookup_optField_append_ne (show ("steal" : String) ≠ "guest_nice" by decide),
      dictLookup_optField_append_ne (show ("guest" : String) ≠ "guest_nice" by decide)]
  exact dictLookup_optField_self _ _

end CpuPercent

/-! ### Concrete data for witnesses and counterexamples -/

/-- A concrete provider record used in witnesses: 20% user, 10% system,
70% idle, no optional attributes. -/
def exTimes : CpuTimes :=
  { user := 20, system := 10, idle := 70, nice := none, iowait := none,
    irq := none, softirq := none, steal := none, guest := none,
    guest_nice := none }

/-- The key sets the `cpu_info` mapping can reach: empty (at construction),
only `cpu_name` (after a refresh whose frequency query failed, which stores
`cpu_name` and then raises), or exactly the three stored keys (after a
successful refresh).  The lemmas below prove this invariant holds at
construction and is preserved by every operation. -/
def infoKeysReachable (d : Dict) : Prop :=
  dictKeys d = [] ∨ dictKeys d = ["cpu_name"] ∨
    dictKeys d = ["cpu_name", "cpu_hz_current", "cpu_hz"]

lemma dict_of_keys_one {d : Dict} (h : dictKeys d = ["cpu_name"]) :
    ∃ v1, d = [("cpu_name", v1)] := by
  rcases d with _ | ⟨⟨k1, v1⟩, l1⟩
  · simp [dictKeys] at h
  · simp [dictKeys, List.map_eq_nil_iff] at h
    obtain ⟨e1, e2⟩ := h
    subst e1
    subst e2
    exact ⟨v1, rfl⟩

lemma dict_of_keys_three {d : Dict}
    (h : dictKeys d = ["cpu_name", "cpu_hz_current", "cpu_hz"]) :
    ∃ v1 v2 v3,
      d = [("cpu_name", v1), ("cpu_hz_current", v2), ("cpu_hz", v3)] := by
  rcases d with _ | ⟨⟨k1, v1⟩, _ | ⟨⟨k2, v2⟩, _ | ⟨⟨k3, v3⟩, _ | ⟨p4, l4⟩⟩⟩⟩
  · simp [dictKeys] at h
  · simp [dictKeys] at h
  · simp [dictKeys] at h
  · simp [dictKeys] at h
    obtain ⟨e1, e2, e3⟩ := h
    subst e1; subst e2; subst e3
    exact ⟨v1, v2, v3, rfl⟩
  · simp [dictKeys] at h

lemma cpu_info_get_cpu (st : CpuPercentState) (now : ℚ) (p : Option ℚ) :
    (CpuPercent.get_cpu st now p).2.1.cpu_info = st.cpu_info := by
  rcases hf : st.timer_cpu.finished now with _ | _
  · rw [CpuPercent.get_cpu_not_due p hf]
  · cases p with
    | none => rw [CpuPercent.get_cpu_fail hf]
    | some v => rw [CpuPercent.get_cpu_sample hf v]

lemma cpu_info_get_percpu (st : CpuPercentState) (now : ℚ)
    (p : Option (List CpuTimes)) :
    (CpuPercent.get_percpu st now p).2.1.cpu_info = st.cpu_info := by
  rcases hf : st.timer_percpu.finished now with _ | _
  · rw [CpuPercent.get_percpu_not_due p hf]
  · cases p with
    | none => rw [CpuPercent.get_percpu_fail hf]
    | some recs => rw [CpuPercent.get_percpu_sample hf recs]

lemma infoKeysReachable_init (c now : ℚ) :
    infoKeysReachable (CpuPercent.init c now).cpu_info :=
  Or.inl rfl

lemma infoKeysReachable_get_cpu {st : CpuPercentState} (now : ℚ) (p : Option ℚ)
    (h : infoKeysReachable st.cpu_info) :
    infoKeysReachable (CpuPercent.get_cpu st now p).2.1.cpu_info := by
  rw [cpu_info_get_cpu]
  exact h

lemma infoKeysReachable_get_percpu {st : CpuPercentState} (now : ℚ)
    (p : Option (List CpuTimes)) (h : infoKeysReachable st.cpu_info) :
    infoKeysReachable (CpuPercent.get_percpu st now p).2.1.cpu_info := by
  rw [cpu_info_get_percpu]
  exact h

lemma infoKeysReachable_insert_name (d : Dict) (v : Val)
    (h : infoKeysReachable d) :
    infoKeysReachable (dictInsert "cpu_name" v d) := by
  rcases h with h0 | h1 | h3
  · rw [List.map_eq_nil_iff.mp h0]
    exact Or.inr (Or.inl rfl)
  · obtain ⟨v1, e⟩ := dict_of_keys_one h1
    rw [e]
    exact Or.inr (Or.inl rfl)
  · obtain ⟨v1, v2, v3, e⟩ := dict_of_keys_three h3
    rw [e]
    exact Or.inr (Or.inr rfl)

lemma infoKeysReachable_insert_all (d : Dict) (v v2 v3 : Val)
    (h : infoKeysReachable d) :
    infoKeysReachable
      (dictInsert "cpu_hz" v3 (dictInsert "cpu_hz_current" v2
        (dictInsert "cpu_name" v d))) := by
  rcases h with h0 | h1 | h3
  · rw [List.map_eq_nil_iff.mp h0]
    exact Or.inr (Or.inr rfl)
  · obtain ⟨w1, e⟩ := dict_of_keys_one h1
    rw [e]
    exact Or.inr (Or.inr rfl)
  · obtain ⟨w1, w2, w3, e⟩ := dict_of_keys_three h3
    rw [e]
    exact Or.inr (Or.inr rfl)

lemma infoKeysReachable_get_info {st : CpuPercentState} (now : ℚ)
    (nm : Option String) (f : Option CpuFreq)
    (h : infoKeysReachable st.cpu_info) :
    infoKeysReachable (CpuPercent.get_info st now nm f).2.1.cpu_info := by
  rcases hf : st.timer_cpu_info.finished now with _ | _
  · rw [CpuPercent.get_info_not_due nm f hf]
    exact h
  · cases f with
    | none =>
        rw [CpuPercent.get_info_fail nm hf]
        exact infoKeysReachable_insert_name st.cpu_info _ h
    | some fr =>
        rw [CpuPercent.get_info_sample nm fr hf]
        exact infoKeysReachable_insert_all st.cpu_info _ _ _ h

/-! ### Claims -/

/-- C2: the claim fails on the code.  `__init__` assigns the literal `1` to
`self.cached_time`, silently ignoring its `cached_time` parameter, so an
instance constructed with interval 3 uses cache interval 1: the stored
interval is 1 (not 3) and the timer reset performed by the first aggregate
refresh has duration 1 (not 3). -/
theorem C2_cached_time_parameter_ignored :
    (CpuPercent.init 3 0).cached_time = 1 ∧
    (CpuPercent.init 3 0).cached_time ≠ 3 ∧
    (CpuPercent.get_cpu (CpuPercent.init 3 0) 0 (some 50)).2.1.timer_cpu =
      newTimer 1 0 ∧
    (CpuPercent.get_cpu (CpuPercent.init 3 0) 0 (some 50)).2.1.timer_cpu ≠
      newTimer 3 0 := by
  have hdue : (CpuPercent.init 3 0).timer_cpu.finished 0 = true := by
    norm_num [CpuPercent.init, newTimer, Timer.finished]
  refine ⟨rfl, by norm_num [CpuPercent.init], ?_, ?_⟩
  · rw [CpuPercent.get_cpu_sample hdue 50]
    rfl
  · rw [CpuPercent.get_cpu_sample hdue 50]
    norm_num [newTimer, CpuPercent.init, Timer.mk.injEq]

/-- C5: immediately after construction all three timers are already expired,
so the first call to each accessor at any time `t ≥ t0` finds its timer due
and invokes the OS provider, regardless of the configured interval. -/
theorem C5_cold_start (c t0 t : ℚ) (h : t0 ≤ t) (p : Option ℚ)
    (recs : Option (List CpuTimes)) (nm : Option String) (f : Option CpuFreq) :
    ((CpuPercent.init c t0).timer_cpu.finished t = true ∧
     (CpuPercent.init c t0).timer_percpu.finished t = true ∧
     (CpuPercent.init c t0).timer_cpu_info.finished t = true) ∧
    (CpuPercent.get_cpu (CpuPercent.init c t0) t p).2.2 = true ∧
    (CpuPercent.get_percpu (CpuPercent.init c t0) t recs).2.2 = true ∧
    (CpuPercent.get_info (CpuPercent.init c t0) t nm f).2.2 = true := by
  have h1 : (CpuPercent.init c t0).timer_cpu.finished t = true := by
    simp only [CpuPercent.init, newTimer, Timer.finished, decide_eq_true_eq]
    linarith
  have h2 : (CpuPercent.init c t0).timer_percpu.finished t = true := h1
  have h3 : (CpuPercent.init c t0).timer_cpu_info.finished t = true := h1
  refine ⟨⟨h1, h2, h3⟩, ?_, ?_, ?_⟩
  · cases p with
    | none => rw [CpuPercent.get_cpu_fail h1]
    | some v => rw [CpuPercent.get_cpu_sample h1 v]
  · cases recs with
    | none => rw [CpuPercent.get_percpu_fail h2]
    | some rs => rw [CpuPercent.get_percpu_sample h2 rs]
  · cases f with
    | none => rw [CpuPercent.get_info_fail nm h3]
    | some fr => rw [CpuPercent.get_info_sample nm fr h3]

/-- Witness for C5 at interval 5, construction time 0, first call at time 0. -/
theorem C5_cold_start_witness :
    (CpuPercent.get_cpu (CpuPercent.init 5 0) 0 (some 12)).2.2 = true :=
  (C5_cold_start 5 0 0 (by decide) (some 12) (some [exTimes]) none none).2.1

/-- C4: for each of the three metrics, a refresh attempt on which the provider
fails leaves that metric's timer unchanged and still due at every later time
(so the very next call retries), and whenever a call does change the timer,
that call invoked the provider, returned successfully, and the new timer is
`Timer(cached_time)` created at the call time. -/
theorem C4_timer_reset_only_on_success (st : CpuPercentState) (t : ℚ) :
    (∀ (p : Option ℚ) e st2 b,
       CpuPercent.get_cpu st t p = (Except.error e, st2, b) →
       st2.timer_cpu = st.timer_cpu ∧
         ∀ t2, t ≤ t2 → st2.timer_cpu.finished t2 = true) ∧
    (∀ (p : Option ℚ) v st2 b,
       CpuPercent.get_cpu st t p = (Except.ok v, st2, b) →
       st2.timer_cpu = st.timer_cpu ∨
         (b = true ∧ st2.timer_cpu = newTimer st.cached_time t)) ∧
    (∀ (p : Option (List CpuTimes)) e st2 b,
       CpuPercent.get_percpu st t p = (Except.error e, st2, b) →
       st2.timer_percpu = st.timer_percpu ∧
         ∀ t2, t ≤ t2 → st2.timer_percpu.finished t2 = true) ∧
    (∀ (p : Option (List CpuTimes)) l st2 b,
       CpuPercent.get_percpu st t p = (Except.ok l, st2, b) →
       st2.timer_percpu = st.timer_percpu ∨
         (b = true ∧ st2.timer_percpu = newTimer st.cached_time t)) ∧
    (∀ (nm : Option String) (f : Option CpuFreq) e st2 b,
       CpuPercent.get_info st t nm f = (Except.error e, st2, b) →
       st2.timer_cpu_info = st.timer_cpu_info ∧
         ∀ t2, t ≤ t2 → st2.timer_cpu_info.finished t2 = true) ∧
    (∀ (nm : Option String) (f : Option CpuFreq) d st2 b,
       CpuPercent.get_info st t nm f = (Except.ok d, st2, b) →
       st2.timer_cpu_info = st.timer_cpu_info ∨
         (b = true ∧ st2.timer_cpu_info = newTimer st.cached_time t)) := by
  refine ⟨?_, ?_, ?_, ?_, ?_, ?_⟩
  · intro p e st2 b h
    rcases hf : st.timer_cpu.finished t with _ | _
    · rw [CpuPercent.get_cpu_not_due p hf] at h
      exact absurd h (by simp)
    · cases p with
      | none =>
          rw [CpuPercent.get_cpu_fail hf] at h
          injection h with h1 h23
          injection h23 with h2 h3
          subst h2
          exact ⟨rfl, fun t2 ht2 => Timer.finished_mono hf ht2⟩
      | some v =>
          rw [CpuPercent.get_cpu_sample hf v] at h
          exact absurd h (by simp)
  · intro p v st2 b h
    rcases hf : st.timer_cpu.finished t with _ | _
    · rw [CpuPercent.get_cpu_not_due p hf] at h
      injection h with h1 h23
      injection h23 with h2 h3
      subst h2
      exact Or.inl rfl
    · cases p with
      | none =>
          rw [CpuPercent.get_cpu_fail hf] at h
          exact absurd h (by simp)
      | some w =>
          rw [CpuPercent.get_cpu_sample hf w] at h
          injection h with h1 h23
          injection h23 with h2 h3
          subst h2
          exact Or.inr ⟨h3.symm, rfl⟩
  · intro p e st2 b h
    rcases hf : st.timer_percpu.finished t with _ | _
    · rw [CpuPercent.get_percpu_not_due p hf] at h
      exact absurd h (by simp)
    · cases p with
      | none =>
          rw [CpuPercent.get_percpu_fail hf] at h
          injection h with h1 h23
          injection h23 with h2 h3
          subst h2
          exact ⟨rfl, fun t2 ht2 => Timer.finished_mono hf ht2⟩
      | some recs =>
          rw [CpuPercent.get_percpu_sample hf recs] at h
          exact absurd h (by simp)
  · intro p l st2 b h
    rcases hf : st.timer_percpu.finished t with _ | _
    · rw [CpuPercent.get_percpu_not_due p hf] at h
      injection h with h1 h23
      injection h23 with h2 h3
      subst h2
      exact Or.inl rfl
    · cases p with
      | none =>
          rw [CpuPercent.get_percpu_fail hf] at h
          exact absurd h (by simp)
      | some recs =>
          rw [CpuPercent.get_percpu_sample hf recs] at h
          injection h with h1 h23
          injection h23 with h2 h3
          subst h2
          by_cases he : (CpuPercent.pyEnumerate 0 recs).isEmpty = true
          · exact Or.inl (by simp [he])
          · exact Or.inr ⟨h3.symm, by simp [he]⟩
  · intro nm f e st2 b h
    rcases hf : st.timer_cpu_info.finished t with _ | _
    · rw [CpuPercent.get_info_not_due nm f hf] at h
      exact absurd h (by simp)
    · cases f with
      | none =>
          rw [CpuPercent.get_info_fail nm hf] at h
          injection h with h1 h23
          injection h23 with h2 h3
          subst h2
          exact ⟨rfl, fun t2 ht2 => Timer.finished_mono hf ht2⟩
      | some fr =>
          rw [CpuPercent.get_info_sample nm fr hf] at h
          exact absurd h (by simp)
  · intro nm f d st2 b h
    rcases hf : st.timer_cpu_info.finished t with _ | _
    · rw [CpuPercent.get_info_not_due nm f hf] at h
      injection h with h1 h23
      injection h23 with h2 h3
      subst h2
      exact Or.inl rfl
    · cases f with
      | none =>
          rw [CpuPercent.get_info_fail nm hf] at h
          exact absurd h (by simp)
      | some fr =>
          rw [CpuPercent.get_info_sample nm fr hf] at h
          injection h with h1 h23
          injection h23 with h2 h3
          subst h2
          exact Or.inr ⟨h3.symm, rfl⟩

/-- Witness for C4: a per-core provider failure at time 5 leaves the
per-core timer still due at time 6. -/
theorem C4_witness :
    (CpuPercent.get_percpu (CpuPercent.init 1 0) 5 none).2.1.timer_percpu.finished 6 =
      true := by
  have hdue : (CpuPercent.init 1 0).timer_percpu.finished 5 = true := by
    norm_num [CpuPercent.init, newTimer, Timer.finished]
  rw [CpuPercent.get_percpu_fail hdue]
  exact ((C4_timer_reset_only_on_success (CpuPercent.init 1 0) 5).2.2.1 none () _
      true (CpuPercent.get_percpu_fail hdue)).2 6 (by norm_num)

/-- C6: in every list produced by a successful per-core refresh, the `total`
field of the i-th sample is `round(100 - idle, 1)` computed from the idle
value of the i-th provider record. -/
theorem C6_total_busy (st st2 : CpuPercentState) (t : ℚ)
    (recs : List CpuTimes) (l : List Dict)
    (h : CpuPercent.get_percpu st t (some recs) = (Except.ok l, st2, true))
    (i : ℕ) (ct : CpuTimes) (hct : recs[i]? = some ct) :
    ∃ d, l[i]? = some d ∧
      dictLookup "total" d = some (Val.num (CpuPercent.round1 (100 - ct.idle))) := by
  obtain ⟨hl, -⟩ := CpuPercent.get_percpu_ok_inv h
  subst hl
  refine ⟨CpuPercent.mkCoreDict i ct, ?_, CpuPercent.mkCoreDict_total i ct⟩
  rw [List.getElem?_map, CpuPercent.pyEnumerate_getElem, hct]
  simp

/-- Witness for C6: one core with idle 70 yields total `round(30, 1)`. -/
theorem C6_witness :
    ∃ d, ([CpuPercent.mkCoreDict 0 exTimes] : List Dict)[0]? = some d ∧
      dictLookup "total" d =
        some (Val.num (CpuPercent.round1 (100 - exTimes.idle))) := by
  have hdue : (CpuPercent.init 1 0).timer_percpu.finished 0 = true := by
    norm_num [CpuPercent.init, newTimer, Timer.finished]
  exact C6_total_busy (CpuPercent.init 1 0) _ 0 [exTimes]
    [CpuPercent.mkCoreDict 0 exTimes]
    (by rw [CpuPercent.get_percpu_sample hdue [exTimes]]; exact rfl) 0 exTimes rfl

/-- C7: each produced core sample always carries `user`, `system` and `idle`
taken from its provider record, carries each optional field iff the record
exposes that attribute (with the same value), and its `cpu_number` equals its
0-based position in provider order; the list has one sample per record. -/
theorem C7_field_presence (st st2 : CpuPercentState) (t : ℚ)
    (recs : List CpuTimes) (l : List Dict)
    (h : CpuPercent.get_percpu st t (some recs) = (Except.ok l, st2, true)) :
    l.length = recs.length ∧
    ∀ i ct, recs[i]? = some ct →
      ∃ d, l[i]? = some d ∧
        dictLookup "cpu_number" d = some (Val.nat i) ∧
        dictLookup "user" d = some (Val.num ct.user) ∧
        dictLookup "system" d = some (Val.num ct.system) ∧
        dictLookup "idle" d = some (Val.num ct.idle) ∧
        dictLookup "nice" d = ct.nice.map Val.num ∧
        dictLookup "iowait" d = ct.iowait.map Val.num ∧
        dictLookup "irq" d = ct.irq.map Val.num ∧
        dictLookup "softirq" d = ct.softirq.map Val.num ∧
        dictLookup "steal" d = ct.steal.map Val.num ∧
        dictLookup "guest" d = ct.guest.map Val.num ∧
        dictLookup "guest_nice" d = ct.guest_nice.map Val.num := by
  obtain ⟨hl, -⟩ := CpuPercent.get_percpu_ok_inv h
  subst hl
  constructor
  · rw [List.length_map, CpuPercent.pyEnumerate_length]
  · intro i ct hct
    refine ⟨CpuPercent.mkCoreDict i ct, ?_,
      CpuPercent.mkCoreDict_cpu_number i ct,
      CpuPercent.mkCoreDict_user i ct,
      CpuPercent.mkCoreDict_system i ct,
      CpuPercent.mkCoreDict_idle i ct,
      CpuPercent.mkCoreDict_nice i ct,
      CpuPercent.mkCoreDict_iowait i ct,
      CpuPercent.mkCoreDict_irq i ct,
      CpuPercent.mkCoreDict_softirq i ct,
      CpuPercent.mkCoreDict_steal i ct,
      CpuPercent.mkCoreDict_guest i ct,
      CpuPercent.mkCoreDict_guest_nice i ct⟩
    rw [List.getElem?_map, CpuPercent.pyEnumerate_getElem, hct]
    simp

/-- Witness for C7 on a single record with no optional attributes. -/
theorem C7_witness :
    ∃ d, ([CpuPercent.mkCoreDict 0 exTimes] : List Dict)[0]? = some d ∧
      dictLookup "cpu_number" d = some (Val.nat 0) ∧
      dictLookup "user" d = some (Val.num exTimes.user) ∧
      dictLookup "system" d = some (Val.num exTimes.system) ∧
      dictLookup "idle" d = some (Val.num exTimes.idle) ∧
      dictLookup "nice" d = exTimes.nice.map Val.num ∧
      dictLookup "iowait" d = exTimes.iowait.map Val.num ∧
      dictLookup "irq" d = exTimes.irq.map Val.num ∧
      dictLookup "softirq" d = exTimes.softirq.map Val.num ∧
      dictLookup "steal" d = exTimes.steal.map Val.num ∧
      dictLookup "guest" d = exTimes.guest.map Val.num ∧
      dictLookup "guest_nice" d = exTimes.guest_nice.map Val.num := by
  have hdue : (CpuPercent.init 1 0).timer_percpu.finished 0 = true := by
    norm_num [CpuPercent.init, newTimer, Timer.finished]
  exact (C7_field_presence (CpuPercent.init 1 0) _ 0 [exTimes]
    [CpuPercent.mkCoreDict 0 exTimes]
    (by rw [CpuPercent.get_percpu_sample hdue [exTimes]]; exact rfl)).2 0 exTimes rfl

/-- C10: every dict produced by a per-core refresh carries a field `key`
whose value is the constant string `cpu_number`, identical to the value
returned by `get_key`. -/
theorem C10_key_field (st st2 : CpuPercentState) (t : ℚ)
    (recs : List CpuTimes) (l : List Dict)
    (h : CpuPercent.get_percpu st t (some recs) = (Except.ok l, st2, true)) :
    (∀ (i : ℕ) (d : Dict), l[i]? = some d →
       dictLookup "key" d = some (Val.str CpuPercent.get_key)) ∧
    CpuPercent.get_key = "cpu_number" := by
  obtain ⟨hl, -⟩ := CpuPercent.get_percpu_ok_inv h
  subst hl
  refine ⟨?_, rfl⟩
  intro i d hd
  rw [List.getElem?_map] at hd
  rcases he : (CpuPercent.pyEnumerate 0 recs)[i]? with _ | p
  · rw [he] at hd
    simp at hd
  · rw [he] at hd
    simp only [Option.map_some'] at hd
    injection hd with hd
    subst hd
    exact CpuPercent.mkCoreDict_key p.1 p.2

/-- Witness for C10 on a single-record refresh. -/
theorem C10_witness :
    dictLookup "key" (CpuPercent.mkCoreDict 0 exTimes) =
      some (Val.str CpuPercent.get_key) ∧
    CpuPercent.get_key = "cpu_number" := by
  have hdue : (CpuPercent.init 1 0).timer_percpu.finished 0 = true := by
    norm_num [CpuPercent.init, newTimer, Timer.finished]
  have h := C10_key_field (CpuPercent.init 1 0) _ 0 [exTimes]
    [CpuPercent.mkCoreDict 0 exTimes]
    (by rw [CpuPercent.get_percpu_sample hdue [exTimes]]; exact rfl)
  exact ⟨h.1 0 (CpuPercent.mkCoreDict 0 exTimes) rfl, h.2⟩

/-- C9: within a due `get_info` call, failure of the CPU-name source is never
propagated and stores the literal placeholder "CPU"; failure of the frequency
query makes the call raise; and the stored `cpu_name` is determined solely by
the name-source outcome, whether or not the frequency query fails. -/
theorem C9_name_swallowed_freq_raises (st : CpuPercentState) (t : ℚ)
    (hdue : st.timer_cpu_info.finished t = true) :
    (∀ f : CpuFreq,
       (CpuPercent.get_info st t none (some f)).1 ≠ Except.error () ∧
       dictLookup "cpu_name" (CpuPercent.get_info st t none (some f)).2.1.cpu_info =
         some (Val.str "CPU")) ∧
    (∀ nm : Option String,
       (CpuPercent.get_info st t nm none).1 = Except.error ()) ∧
    (∀ (nm : Option String) (f : Option CpuFreq),
       dictLookup "cpu_name" (CpuPercent.get_info st t nm f).2.1.cpu_info =
         some (Val.str (CpuPercent.nameOf nm))) := by
  have hlook : ∀ (nm : Option String) (f : CpuFreq),
      dictLookup "cpu_name"
        (dictInsert "cpu_hz" (Val.num f.max)
          (dictInsert "cpu_hz_current" (Val.num f.current)
            (dictInsert "cpu_name" (Val.str (CpuPercent.nameOf nm)) st.cpu_info))) =
        some (Val.str (CpuPercent.nameOf nm)) := by
    intro nm f
    rw [dictLookup_insert_ne (show ("cpu_hz" : String) ≠ "cpu_name" by decide),
        dictLookup_insert_ne (show ("cpu_hz_current" : String) ≠ "cpu_name" by decide),
        dictLookup_insert_self]
  refine ⟨?_, ?_, ?_⟩
  · intro f
    rw [CpuPercent.get_info_sample none f hdue]
    exact ⟨by simp, hlook none f⟩
  · intro nm
    rw [CpuPercent.get_info_fail nm hdue]
  · intro nm f
    cases f with
    | none =>
        rw [CpuPercent.get_info_fail nm hdue]
        exact dictLookup_insert_self _ _ _
    | some fr =>
        rw [CpuPercent.get_info_sample nm fr hdue]
        exact hlook nm fr

/-- Witness for C9: on a fresh instance a frequency failure raises. -/
theorem C9_witness :
    (CpuPercent.get_info (CpuPercent.init 1 0) 0 (some "Intel") none).1 =
      Except.error () := by
  have hdue : (CpuPercent.init 1 0).timer_cpu_info.finished 0 = true := by
    norm_num [CpuPercent.init, newTimer, Timer.finished]
  exact (C9_name_swallowed_freq_raises (CpuPercent.init 1 0) 0 hdue).2.1
    (some "Intel")

/-- C8 counterexample: a successful refresh on a fresh instance returns a
mapping whose keys are `cpu_name`, `cpu_hz_current` and `cpu_hz`; there is no
`cpu_hz_max` key, contradicting the claim that the mapping contains it. -/
theorem C8_counterexample :
    (CpuPercent.get_info (CpuPercent.init 1 0) 0 (some "Intel")
        (some { current := 2400, max := 3200 })).1 =
      Except.ok [("cpu_name", Val.str "Intel"), ("cpu_hz_current", Val.num 2400),
                 ("cpu_hz", Val.num 3200)] ∧
    dictLookup "cpu_hz_max"
      [("cpu_name", Val.str "Intel"), ("cpu_hz_current", Val.num 2400),
       ("cpu_hz", Val.num 3200)] = none := by
  have hdue : (CpuPercent.init 1 0).timer_cpu_info.finished 0 = true := by
    norm_num [CpuPercent.init, newTimer, Timer.finished]
  refine ⟨?_, rfl⟩
  rw [CpuPercent.get_info_sample (some "Intel") { current := 2400, max := 3200 } hdue]
  rfl

/-- C8 (amended): every mapping returned by a successful `get_info` refresh
contains exactly the keys `cpu_name` (a string), `cpu_hz_current` (the
provider's current frequency) and `cpu_hz` (the provider's maximum frequency
— the source stores it under `cpu_hz`, not `cpu_hz_max`).  The hypothesis
covers every mapping the instance can reach: empty at construction,
`cpu_name` only after a refresh whose frequency query failed, or exactly
these three keys after a successful refresh; `infoKeysReachable_init` and
the `infoKeysReachable_get_*` lemmas prove those are all the reachable
mappings. -/
theorem C8_info_keys (st st2 : CpuPercentState) (t : ℚ) (nm : Option String)
    (f : CpuFreq) (d : Dict)
    (hprior : infoKeysReachable st.cpu_info)
    (h : CpuPercent.get_info st t nm (some f) = (Except.ok d, st2, true)) :
    dictKeys d = ["cpu_name", "cpu_hz_current", "cpu_hz"] ∧
    dictLookup "cpu_name" d = some (Val.str (CpuPercent.nameOf nm)) ∧
    dictLookup "cpu_hz_current" d = some (Val.num f.current) ∧
    dictLookup "cpu_hz" d = some (Val.num f.max) := by
  obtain ⟨hd, -⟩ := CpuPercent.get_info_ok_inv h
  subst hd
  rcases hprior with h0 | h1 | h3
  · rw [List.map_eq_nil_iff.mp h0]
    exact ⟨rfl, rfl, rfl, rfl⟩
  · obtain ⟨v1, e⟩ := dict_of_keys_one h1
    rw [e]
    exact ⟨rfl, rfl, rfl, rfl⟩
  · obtain ⟨v1, v2, v3, e⟩ := dict_of_keys_three h3
    rw [e]
    exact ⟨rfl, rfl, rfl, rfl⟩

/-- Witness for C8 from the post-frequency-failure state whose mapping holds
only `cpu_name` (the state a failed refresh leaves behind): the next
successful refresh returns exactly the three keys. -/
theorem C8_witness :
    dictKeys ([("cpu_name", Val.str "Intel"), ("cpu_hz_current", Val.num 2400),
               ("cpu_hz", Val.num 3200)] : Dict) =
      ["cpu_name", "cpu_hz_current", "cpu_hz"] ∧
    dictLookup "cpu_name"
      ([("cpu_name", Val.str "Intel"), ("cpu_hz_current", Val.num 2400),
        ("cpu_hz", Val.num 3200)] : Dict) = some (Val.str "Intel") ∧
    dictLookup "cpu_hz_current"
      ([("cpu_name", Val.str "Intel"), ("cpu_hz_current", Val.num 2400),
        ("cpu_hz", Val.num 3200)] : Dict) = some (Val.num 2400) ∧
    dictLookup "cpu_hz"
      ([("cpu_name", Val.str "Intel"), ("cpu_hz_current", Val.num 2400),
        ("cpu_hz", Val.num 3200)] : Dict) = some (Val.num 3200) := by
  have hdue : ({ CpuPercent.init 1 0 with
      cpu_info := [("cpu_name", Val.str "CPU")] }).timer_cpu_info.finished 0 =
      true := by
    norm_num [CpuPercent.init, newTimer, Timer.finished]
  exact C8_info_keys
    { CpuPercent.init 1 0 with cpu_info := [("cpu_name", Val.str "CPU")] } _ 0
    (some "Intel") { current := 2400, max := 3200 }
    [("cpu_name", Val.str "Intel"), ("cpu_hz_current", Val.num 2400),
     ("cpu_hz", Val.num 3200)]
    (Or.inr (Or.inl rfl))
    (by rw [CpuPercent.get_info_sample (some "Intel")
          { current := 2400, max := 3200 } hdue]; exact rfl)

/-- C1 counterexample: the per-core timer is reset inside the per-core loop,
so a successful refresh whose provider output has zero records never resets
the timer.  Concretely: at time 0 a fresh instance refreshes successfully on
an empty provider list (the call samples and returns ok), yet a second call
at time 1/2 — within the cache interval 1 — invokes the provider again,
contradicting "the OS provider is invoked at most once across both calls". -/
theorem C1_counterexample :
    (CpuPercent.get_percpu (CpuPercent.init 1 0) 0 (some [])).1 = Except.ok [] ∧
    (CpuPercent.get_percpu (CpuPercent.init 1 0) 0 (some [])).2.2 = true ∧
    ((1 : ℚ) / 2 <
      0 + (CpuPercent.get_percpu (CpuPercent.init 1 0) 0 (some [])).2.1.cached_time) ∧
    (CpuPercent.get_percpu
        ((CpuPercent.get_percpu (CpuPercent.init 1 0) 0 (some [])).2.1)
        (1 / 2) (some [exTimes])).2.2 = true := by
  have hdue : (CpuPercent.init 1 0).timer_percpu.finished 0 = true := by
    norm_num [CpuPercent.init, newTimer, Timer.finished]
  have h1 : CpuPercent.get_percpu (CpuPercent.init 1 0) 0 (some []) =
      (Except.ok [], { CpuPercent.init 1 0 with percpu_percent := ([] : List Dict) },
       true) := by
    rw [CpuPercent.get_percpu_sample hdue []]
    exact rfl
  rw [h1]
  have hdue2 :
      ({ CpuPercent.init 1 0 with
          percpu_percent := ([] : List Dict) }).timer_percpu.finished (1 / 2) =
        true := by
    norm_num [CpuPercent.init, newTimer, Timer.finished]
  refine ⟨rfl, rfl, by norm_num [CpuPercent.init], ?_⟩
  show (CpuPercent.get_percpu
      { CpuPercent.init 1 0 with percpu_percent := ([] : List Dict) }
      (1 / 2) (some [exTimes])).2.2 = true
  rw [CpuPercent.get_percpu_sample hdue2 [exTimes]]

/-- C1 (amended): after a successful sampled refresh at `t0`, any second call
strictly before `t0 + cached_time` returns exactly the stored value, performs
no provider call and leaves the state unchanged — unconditionally for the
aggregate and cpu-info metrics and, for the per-core metric, provided the
refresh produced at least one core sample (with zero records the per-core
timer, reset only inside the loop, stays due). -/
theorem C1_cache_hit (st st1 : CpuPercentState) (t0 t1 : ℚ) :
    (∀ (v : ℚ) (p : Option ℚ),
       CpuPercent.get_cpu st t0 (some v) = (Except.ok v, st1, true) →
       t1 < t0 + st1.cached_time →
       CpuPercent.get_cpu st1 t1 p = (Except.ok v, st1, false)) ∧
    (∀ (recs : List CpuTimes) (l : List Dict) (p : Option (List CpuTimes)),
       CpuPercent.get_percpu st t0 (some recs) = (Except.ok l, st1, true) →
       recs ≠ [] →
       t1 < t0 + st1.cached_time →
       CpuPercent.get_percpu st1 t1 p = (Except.ok l, st1, false)) ∧
    (∀ (nm : Option String) (f : CpuFreq) (d : Dict) (nm2 : Option String)
       (f2 : Option CpuFreq),
       CpuPercent.get_info st t0 nm (some f) = (Except.ok d, st1, true) →
       t1 < t0 + st1.cached_time →
       CpuPercent.get_info st1 t1 nm2 f2 = (Except.ok d, st1, false)) := by
  refine ⟨?_, ?_, ?_⟩
  · intro v p h ht
    obtain ⟨-, h2⟩ := CpuPercent.get_cpu_ok_inv h
    have hnd : st1.timer_cpu.finished t1 = false := by
      rw [h2] at ht ⊢
      exact newTimer_not_finished ht
    rw [CpuPercent.get_cpu_not_due p hnd, h2]
  · intro recs l p h hne ht
    obtain ⟨hl, h2⟩ := CpuPercent.get_percpu_ok_inv h
    rcases recs with _ | ⟨r, rs⟩
    · exact absurd rfl hne
    · have hnd : st1.timer_percpu.finished t1 = false := by
        rw [h2] at ht ⊢
        exact newTimer_not_finished ht
      rw [CpuPercent.get_percpu_not_due p hnd, h2]
  · intro nm f d nm2 f2 h ht
    obtain ⟨hd, h2⟩ := CpuPercent.get_info_ok_inv h
    have hnd : st1.timer_cpu_info.finished t1 = false := by
      rw [h2] at ht ⊢
      exact newTimer_not_finished ht
    rw [CpuPercent.get_info_not_due nm2 f2 hnd, h2]

/-- Witness for C1 (amended) on the aggregate metric: after a successful
sample of 12 at time 0, a call at time 1/2 returns 12 from the cache without
invoking the provider. -/
theorem C1_witness :
    CpuPercent.get_cpu
      { CpuPercent.init 1 0 with cpu_percent := 12, timer_cpu := newTimer 1 0 }
      (1 / 2) none =
    (Except.ok 12,
     { CpuPercent.init 1 0 with cpu_percent := 12, timer_cpu := newTimer 1 0 },
     false) := by
  have hdue : (CpuPercent.init 1 0).timer_cpu.finished 0 = true := by
    norm_num [CpuPercent.init, newTimer, Timer.finished]
  exact (C1_cache_hit (CpuPercent.init 1 0) _ 0 (1 / 2)).1 12 none
    (by rw [CpuPercent.get_cpu_sample hdue 12]; exact rfl)
    (by norm_num [CpuPercent.init])

/-- C3 counterexample: `__get_percpu` clears `self.percpu_percent` before
invoking the provider, so when the provider fails the stored per-core list is
the empty list, not the pre-attempt value.  Concretely: after a successful
one-core refresh at time 0, a failing refresh at time 1 leaves the stored
list empty, although it was non-empty before the attempt. -/
theorem C3_counterexample :
    (CpuPercent.get_percpu (CpuPercent.init 1 0) 0 (some [exTimes])).2.1.percpu_percent ≠
      [] ∧
    (CpuPercent.get_percpu
        ((CpuPercent.get_percpu (CpuPercent.init 1 0) 0 (some [exTimes])).2.1)
        1 none).1 = Except.error () ∧
    (CpuPercent.get_percpu
        ((CpuPercent.get_percpu (CpuPercent.init 1 0) 0 (some [exTimes])).2.1)
        1 none).2.1.percpu_percent = [] := by
  have hdue : (CpuPercent.init 1 0).timer_percpu.finished 0 = true := by
    norm_num [CpuPercent.init, newTimer, Timer.finished]
  have h1 : CpuPercent.get_percpu (CpuPercent.init 1 0) 0 (some [exTimes]) =
      (Except.ok [CpuPercent.mkCoreDict 0 exTimes],
       { CpuPercent.init 1 0 with
         percpu_percent := [CpuPercent.mkCoreDict 0 exTimes]
         timer_percpu := newTimer 1 0 }, true) := by
    rw [CpuPercent.get_percpu_sample hdue [exTimes]]
    exact rfl
  rw [h1]
  have hdue2 :
      ({ CpuPercent.init 1 0 with
          percpu_percent := [CpuPercent.mkCoreDict 0 exTimes]
          timer_percpu := newTimer 1 0 }).timer_percpu.finished 1 = true := by
    norm_num [newTimer, Timer.finished]
  refine ⟨by simp, ?_, ?_⟩
  · show (CpuPercent.get_percpu
        { CpuPercent.init 1 0 with
          percpu_percent := [CpuPercent.mkCoreDict 0 exTimes]
          timer_percpu := newTimer 1 0 } 1 none).1 = Except.error ()
    rw [CpuPercent.get_percpu_fail hdue2]
  · show (CpuPercent.get_percpu
        { CpuPercent.init 1 0 with
          percpu_percent := [CpuPercent.mkCoreDict 0 exTimes]
          timer_percpu := newTimer 1 0 } 1 none).2.1.percpu_percent = []
    rw [CpuPercent.get_percpu_fail hdue2]

/-- C3 (amended): on a provider failure, the aggregate metric's stored state
is untouched; the per-core store has already been cleared to the empty list
(the pre-attempt value is lost), though on success the stored list is fully
rebuilt from the single provider output, never mixing batches; and a
frequency failure in `get_info` leaves a partially updated mapping — the
`cpu_name` entry freshly written, the other stored metrics untouched. -/
theorem C3_failure_effects (st : CpuPercentState) (t : ℚ) :
    (∀ st2 b, CpuPercent.get_cpu st t none = (Except.error (), st2, b) →
       st2 = st) ∧
    (∀ st2 b, CpuPercent.get_percpu st t none = (Except.error (), st2, b) →
       st2.percpu_percent = [] ∧ st2.cpu_info = st.cpu_info ∧
       st2.cpu_percent = st.cpu_percent) ∧
    (∀ (recs : List CpuTimes) (l : List Dict) st2,
       CpuPercent.get_percpu st t (some recs) = (Except.ok l, st2, true) →
       st2.percpu_percent =
         (CpuPercent.pyEnumerate 0 recs).map (fun p => CpuPercent.mkCoreDict p.1 p.2)) ∧
    (∀ (nm : Option String) st2 b,
       CpuPercent.get_info st t nm none = (Except.error (), st2, b) →
       st2.cpu_info =
         dictInsert "cpu_name" (Val.str (CpuPercent.nameOf nm)) st.cpu_info ∧
       st2.percpu_percent = st.percpu_percent ∧
       st2.cpu_percent = st.cpu_percent) := by
  refine ⟨?_, ?_, ?_, ?_⟩
  · intro st2 b h
    rcases hf : st.timer_cpu.finished t with _ | _
    · rw [CpuPercent.get_cpu_not_due none hf] at h
      exact absurd h (by simp)
    · rw [CpuPercent.get_cpu_fail hf] at h
      injection h with h1 h23
      injection h23 with h2 h3
      exact h2.symm
  · intro st2 b h
    rcases hf : st.timer_percpu.finished t with _ | _
    · rw [CpuPercent.get_percpu_not_due none hf] at h
      exact absurd h (by simp)
    · rw [CpuPercent.get_percpu_fail hf] at h
      injection h with h1 h23
      injection h23 with h2 h3
      subst h2
      exact ⟨rfl, rfl, rfl⟩
  · intro recs l st2 h
    obtain ⟨hl, h2⟩ := CpuPercent.get_percpu_ok_inv h
    subst h2
    exact hl
  · intro nm st2 b h
    rcases hf : st.timer_cpu_info.finished t with _ | _
    · rw [CpuPercent.get_info_not_due nm none hf] at h
      exact absurd h (by simp)
    · rw [CpuPercent.get_info_fail nm hf] at h
      injection h with h1 h23
      injection h23 with h2 h3
      subst h2
      exact ⟨rfl, rfl, rfl⟩

/-- Witness for C3 (amended): a per-core provider failure on a fresh instance
leaves the cleared list and the untouched aggregate value. -/
theorem C3_witness :
    ({ CpuPercent.init 1 0 with
        percpu_percent := ([] : List Dict) }).percpu_percent = [] ∧
    ({ CpuPercent.init 1 0 with
        percpu_percent := ([] : List Dict) }).cpu_info =
      (CpuPercent.init 1 0).cpu_info ∧
    ({ CpuPercent.init 1 0 with
        percpu_percent := ([] : List Dict) }).cpu_percent =
      (CpuPercent.init 1 0).cpu_percent := by
  have hdue : (CpuPercent.init 1 0).timer_percpu.finished 0 = true := by
    norm_num [CpuPercent.init, newTimer, Timer.finished]
  exact (C3_failure_effects (CpuPercent.init 1 0) 0).2.1 _ true
    (CpuPercent.get_percpu_fail hdue)

end Glances
